import Mathlib

/-!
Verification of the Palmer Penguins notebook (`src/palmer-penguins.ipynb`).

The notebook is a linear scikit-learn demonstration pipeline:
load → clean (`dropna`) → feature/label extraction → `train_test_split`
→ fit → predict → score → plot.  We embed the dataframe as a list of rows,
the notebook's own glue code directly from the cells, and the external
library calls (scikit-learn, seaborn) as models taken from the spec and the
notebook's own prose, since their implementations are not part of this
repository.
-/

namespace PalmerPenguins

/-- A row of the penguins dataframe as loaded by seaborn's
`load_dataset('penguins')`: a categorical species label, island and sex
strings, and four numeric morphological measurements.  Any cell may be
missing (`NaN` in pandas), which we embed as `none`. -/
structure PenguinRow where
  species : Option String
  island : Option String
  bill_length_mm : Option ℚ
  bill_depth_mm : Option ℚ
  flipper_length_mm : Option ℚ
  body_mass_g : Option ℚ
  sex : Option String

deriving instance DecidableEq for PenguinRow

deriving instance Repr for PenguinRow

/-- A row is complete when no column of it is missing; pandas
`DataFrame.dropna()` keeps exactly these rows (default `how='any'` over all
columns). -/
def rowComplete (r : PenguinRow) : Bool :=
  r.species.isSome && r.island.isSome && r.bill_length_mm.isSome &&
    r.bill_depth_mm.isSome && r.flipper_length_mm.isSome &&
    r.body_mass_g.isSome && r.sex.isSome

/-- Cell 5 of the notebook: `data = data.dropna()` discards every row with at
least one missing value. -/
def dropna (data : List PenguinRow) : List PenguinRow :=
  data.filter rowComplete

/-- Cell 7 of the notebook: the four numeric feature columns. -/
def feature_columns : List String :=
  ["bill_length_mm", "bill_depth_mm", "flipper_length_mm", "body_mass_g"]

/-- Column selection by name for the numeric measurement columns, the model of
indexing one named numeric column of the dataframe (as `data.loc` does with a
column label). -/
def numColumn (r : PenguinRow) (c : String) : Option ℚ :=
  if c = "bill_length_mm" then r.bill_length_mm
  else if c = "bill_depth_mm" then r.bill_depth_mm
  else if c = "flipper_length_mm" then r.flipper_length_mm
  else if c = "body_mass_g" then r.body_mass_g
  else none

/-- Cell 7: `X = data.loc[:, feature_columns]` — the feature matrix, one list
of the four selected numeric column values per row. -/
def Xof (data : List PenguinRow) : List (List (Option ℚ)) :=
  data.map (fun r => feature_columns.map (numColumn r))

/-- Cell 7: `y = data.loc[:, 'species']` — the label vector, the species
column. -/
def yof (data : List PenguinRow) : List (Option String) :=
  data.map (fun r => r.species)

/-- A complete example row, used by the witnesses. -/
def demo_row_ok : PenguinRow :=
  ⟨some "Adelie", some "Torgersen", some 39, some 18, some 181, some 3750,
    some "Male"⟩

/-- An example row with two missing cells, used by the witnesses. -/
def demo_row_na : PenguinRow :=
  ⟨some "Adelie", some "Torgersen", none, some 17, some 186, some 3800, none⟩

/-- C1: `data = data.dropna()` returns exactly the sub-dataset of rows with no
missing value in any column: the result is a sublist of the input (so kept
rows keep their values and relative order), a row belongs to it iff it belongs
to the input and is complete, every complete row is kept with its full
multiplicity, and every row with a missing value is removed entirely. -/
theorem dropna_drops_exactly_incomplete_rows (data : List PenguinRow) :
    List.Sublist (dropna data) data ∧
    (∀ r, r ∈ dropna data ↔ r ∈ data ∧ rowComplete r = true) ∧
    (∀ r, rowComplete r = true → (dropna data).count r = data.count r) ∧
    (∀ r, rowComplete r = false → (dropna data).count r = 0) := by
  refine ⟨List.filter_sublist data, fun r => List.mem_filter,
    fun r h => ?_, fun r h => ?_⟩
  · simp [dropna, List.count_filter, h]
  · rw [List.count_eq_zero]
    simp [dropna, List.mem_filter, h]

/-- Witness for C1 on a concrete two-row dataset: the incomplete row is
removed outright and the complete row keeps its multiplicity. -/
theorem dropna_drops_exactly_incomplete_rows_witness :
    rowComplete demo_row_na = false ∧
    (dropna [demo_row_ok, demo_row_na]).count demo_row_na = 0 ∧
    rowComplete demo_row_ok = true ∧
    (dropna [demo_row_ok, demo_row_na]).count demo_row_ok =
      ([demo_row_ok, demo_row_na] : List PenguinRow).count demo_row_ok := by
  refine ⟨by decide, ?_, by decide, ?_⟩
  · exact (dropna_drops_exactly_incomplete_rows [demo_row_ok, demo_row_na]).2.2.2
      demo_row_na (by decide)
  · exact (dropna_drops_exactly_incomplete_rows [demo_row_ok, demo_row_na]).2.2.1
      demo_row_ok (by decide)

/-- C3: the feature matrix `X` and label vector `y` extracted in cell 7 have
one row per dataset row (so the same number of rows as each other), and at
every index `i` the `X` row is exactly the four numeric measurement columns
`bill_length_mm, bill_depth_mm, flipper_length_mm, body_mass_g` of the `i`-th
dataset row, in that order, while the `y` entry is the species column of that
same row. -/
theorem feature_label_extraction (data : List PenguinRow) :
    (Xof data).length = data.length ∧
    (yof data).length = data.length ∧
    (∀ (i : ℕ) (r : PenguinRow), data[i]? = some r →
      (Xof data)[i]? = some [r.bill_length_mm, r.bill_depth_mm,
        r.flipper_length_mm, r.body_mass_g] ∧
      (yof data)[i]? = some r.species) := by
  refine ⟨by simp [Xof], by simp [yof], fun i r h => ⟨?_, ?_⟩⟩
  · simp [Xof, h, feature_columns, numColumn]
  · simp [yof, h]

/-- Witness for C3: on a concrete one-row dataset, row 0 of `X` is the four
measurements of row 0 of the data and entry 0 of `y` is its species. -/
theorem feature_label_extraction_witness :
    ([demo_row_ok] : List PenguinRow)[0]? = some demo_row_ok ∧
    (Xof [demo_row_ok])[0]? =
      some [demo_row_ok.bill_length_mm, demo_row_ok.bill_depth_mm,
        demo_row_ok.flipper_length_mm, demo_row_ok.body_mass_g] ∧
    (yof [demo_row_ok])[0]? = some demo_row_ok.species := by
  refine ⟨rfl, ?_, ?_⟩
  · exact ((feature_label_extraction [demo_row_ok]).2.2 0 demo_row_ok rfl).1
  · exact ((feature_label_extraction [demo_row_ok]).2.2 0 demo_row_ok rfl).2

/-- Modelled from the spec: scikit-learn's `train_test_split` (cell 11) is
library code not contained in this repository.  The spec describes it as
"partitioning of data into a fitting subset and a held-out evaluation
subset", with the rows shuffled; we model the shuffle as an arbitrary
permutation `perm` of the row indices, the test set as the first `nTest`
shuffled rows and the training set as the remaining shuffled rows, with the
same shuffled index list applied to the feature rows `X` and the label
entries `y`.  The result is `(X_train, X_test, y_train, y_test)`, matching
the notebook's destructuring. -/
def train_test_split {α β : Type} (X : List α) (y : List β)
    (perm : List ℕ) (nTest : ℕ) :
    List α × List α × List β × List β :=
  ((perm.drop nTest).filterMap (fun i => X[i]?),
   (perm.take nTest).filterMap (fun i => X[i]?),
   (perm.drop nTest).filterMap (fun i => y[i]?),
   (perm.take nTest).filterMap (fun i => y[i]?))

theorem length_filterMap_getElem {α : Type} (m : List α) :
    ∀ (l : List ℕ), (∀ i ∈ l, i < m.length) →
      (l.filterMap fun i => m[i]?).length = l.length := by
  intro l
  induction l with
  | nil => simp
  | cons i t ih =>
    intro h
    have hi : i < m.length := h i (List.mem_cons_self i t)
    simp [List.filterMap_cons, List.getElem?_eq_getElem hi,
      ih (fun j hj => h j (List.mem_cons_of_mem i hj))]

theorem zip_filterMap_getElem {α β : Type} (a : List α) (b : List β)
    (hlen : b.length = a.length) :
    ∀ (l : List ℕ), (∀ i ∈ l, i < a.length) →
      (l.filterMap fun i => a[i]?).zip (l.filterMap fun i => b[i]?) =
        l.filterMap fun i => (a.zip b)[i]? := by
  intro l
  induction l with
  | nil => simp
  | cons i t ih =>
    intro h
    have hi : i < a.length := h i (List.mem_cons_self i t)
    have hib : i < b.length := by omega
    have hiz : i < (a.zip b).length := by
      rw [List.length_zip]; omega
    simp [List.filterMap_cons, List.getElem?_eq_getElem hi,
      List.getElem?_eq_getElem hib, List.getElem?_eq_getElem hiz,
      List.getElem_zip, ih (fun j hj => h j (List.mem_cons_of_mem i hj))]

theorem filterMap_getElem_range {α : Type} (m : List α) :
    (List.range m.length).filterMap (fun i => m[i]?) = m := by
  induction m with
  | nil => simp
  | cons a t ih =>
    rw [List.length_cons, List.range_succ_eq_map]
    simp only [List.filterMap_cons, List.getElem?_cons_zero,
      List.filterMap_map, Function.comp_def, List.getElem?_cons_succ]
    rw [ih]

/-- C2: the train/test split of the cleaned `(X, y)` is a partition: writing
the result as `(X_train, X_test, y_train, y_test)`, the test pairs together
with the train pairs are a permutation of the original row/label pairs (every
row lands in exactly one part, the parts together hold all rows and nothing
else, and within each part index `i` of the feature list still corresponds to
index `i` of the label list, both coming from the same original pair), and
the part sizes add up to the number of rows. -/
theorem train_test_split_partition {α β : Type} (X : List α) (y : List β)
    (perm : List ℕ) (nTest : ℕ)
    (hperm : perm.Perm (List.range X.length)) (hlen : y.length = X.length) :
    ∀ (X_train X_test : List α) (y_train y_test : List β),
      train_test_split X y perm nTest = (X_train, X_test, y_train, y_test) →
      (X_test.zip y_test ++ X_train.zip y_train).Perm (X.zip y) ∧
      X_train.length = y_train.length ∧
      X_test.length = y_test.length ∧
      X_train.length + X_test.length = X.length := by
  intro X_train X_test y_train y_test heq
  simp only [train_test_split, Prod.mk.injEq] at heq
  obtain ⟨h1, h2, h3, h4⟩ := heq
  subst h1 h2 h3 h4
  have hmem : ∀ i ∈ perm, i < X.length := by
    intro i hi
    have := hperm.mem_iff.mp hi
    exact List.mem_range.mp this
  have hmemT : ∀ i ∈ perm.take nTest, i < X.length :=
    fun i hi => hmem i (List.mem_of_mem_take hi)
  have hmemD : ∀ i ∈ perm.drop nTest, i < X.length :=
    fun i hi => hmem i (List.mem_of_mem_drop hi)
  have hmemTy : ∀ i ∈ perm.take nTest, i < y.length := by
    intro i hi; have := hmemT i hi; omega
  have hmemDy : ∀ i ∈ perm.drop nTest, i < y.length := by
    intro i hi; have := hmemD i hi; omega
  have hzlen : (X.zip y).length = X.length := by
    rw [List.length_zip]; omega
  refine ⟨?_, ?_, ?_, ?_⟩
  · rw [zip_filterMap_getElem X y hlen _ hmemT,
      zip_filterMap_getElem X y hlen _ hmemD, ← List.filterMap_append,
      List.take_append_drop]
    have step : (perm.filterMap fun i => (X.zip y)[i]?).Perm
        ((List.range X.length).filterMap fun i => (X.zip y)[i]?) :=
      hperm.filterMap _
    refine step.trans ?_
    rw [← hzlen, filterMap_getElem_range]
  · rw [length_filterMap_getElem X _ hmemD, length_filterMap_getElem y _ hmemDy]
  · rw [length_filterMap_getElem X _ hmemT, length_filterMap_getElem y _ hmemTy]
  · rw [length_filterMap_getElem X _ hmemD, length_filterMap_getElem X _ hmemT]
    have := hperm.length_eq
    rw [List.length_range] at this
    have ht : (perm.take nTest).length + (perm.drop nTest).length = perm.length := by
      rw [List.length_take, List.length_drop]; omega
    omega

/-- Witness for C2 on a concrete three-row dataset split with permutation
`[2, 0, 1]` and one test row. -/
theorem train_test_split_partition_witness :
    train_test_split ([10, 20, 30] : List ℕ) (["a", "b", "c"] : List String)
      [2, 0, 1] 1 = ([10, 20], [30], ["a", "b"], ["c"]) ∧
    (([30] : List ℕ).zip (["c"] : List String) ++
      ([10, 20] : List ℕ).zip (["a", "b"] : List String)).Perm
      (([10, 20, 30] : List ℕ).zip ["a", "b", "c"]) ∧
    ([10, 20] : List ℕ).length + ([30] : List ℕ).length =
      ([10, 20, 30] : List ℕ).length := by
  refine ⟨by decide, ?_, ?_⟩
  · exact (train_test_split_partition [10, 20, 30] ["a", "b", "c"] [2, 0, 1] 1
      (by decide) (by decide) [10, 20] [30] ["a", "b"] ["c"] (by decide)).1
  · exact (train_test_split_partition [10, 20, 30] ["a", "b", "c"] [2, 0, 1] 1
      (by decide) (by decide) [10, 20] [30] ["a", "b"] ["c"] (by decide)).2.2.2

/-- Modelled from the spec: scikit-learn's `train_test_split` with a
fractional `test_size` rounds the held-out row count up, allocating
`ceil(test_size * n)` of the `n` rows to the test set; the implementation is
library code not contained in this repository.  With the notebook's
`test_size = 0.3` this is `ceil(3/10 * n)` rows. -/
def test_size_rows (n : ℕ) : ℕ :=
  (⌈(3 / 10 : ℚ) * (n : ℚ)⌉).toNat

/-- Cell 11 of the notebook:
`train_test_split(X, y, test_size = 0.3)`. -/
def cell11_split {α β : Type} (X : List α) (y : List β) (perm : List ℕ) :
    List α × List α × List β × List β :=
  train_test_split X y perm (test_size_rows X.length)

theorem test_size_rows_le (n : ℕ) : test_size_rows n ≤ n := by
  rw [test_size_rows, Int.toNat_le, Int.ceil_le]
  push_cast
  nlinarith [Nat.cast_nonneg (α := ℚ) n]

/-- C5: with the call of cell 11, `train_test_split(X, y, test_size = 0.3)`
on `n` cleaned rows allocates `ceil(3/10 * n)` rows to the test set and the
remaining `n - ceil(3/10 * n)` rows to the training set; the held-out
fraction actually used is 30%, which differs from the 25% default quoted in
the notebook's prose (already at `n = 20` the two row counts disagree). -/
theorem test_size_thirty_percent {α β : Type} (X : List α) (y : List β)
    (perm : List ℕ)
    (hperm : perm.Perm (List.range X.length)) (_hlen : y.length = X.length) :
    (∀ (X_train X_test : List α) (y_train y_test : List β),
      cell11_split X y perm = (X_train, X_test, y_train, y_test) →
      X_test.length = (⌈(3 / 10 : ℚ) * (X.length : ℚ)⌉).toNat ∧
      X_train.length = X.length - (⌈(3 / 10 : ℚ) * (X.length : ℚ)⌉).toNat) ∧
    test_size_rows 20 ≠ (⌈(1 / 4 : ℚ) * (20 : ℚ)⌉).toNat := by
  constructor
  · intro X_train X_test y_train y_test heq
    simp only [cell11_split, train_test_split, Prod.mk.injEq] at heq
    obtain ⟨h1, h2, h3, h4⟩ := heq
    subst h1 h2
    have hmem : ∀ i ∈ perm, i < X.length := by
      intro i hi
      exact List.mem_range.mp (hperm.mem_iff.mp hi)
    have hmemT : ∀ i ∈ perm.take (test_size_rows X.length), i < X.length :=
      fun i hi => hmem i (List.mem_of_mem_take hi)
    have hmemD : ∀ i ∈ perm.drop (test_size_rows X.length), i < X.length :=
      fun i hi => hmem i (List.mem_of_mem_drop hi)
    have hplen : perm.length = X.length := by
      have := hperm.length_eq
      rwa [List.length_range] at this
    have hle := test_size_rows_le X.length
    constructor
    · rw [length_filterMap_getElem X _ hmemT, List.length_take, ← test_size_rows]
      omega
    · rw [length_filterMap_getElem X _ hmemD, List.length_drop, ← test_size_rows]
      omega
  · norm_num [test_size_rows]
    decide

/-- Witness for C5: splitting three rows gives a one-row test set and a
two-row training set. -/
theorem test_size_rows_three : test_size_rows 3 = 1 := by
  have h : ⌈(9 / 10 : ℚ)⌉ = (1 : ℤ) := by
    rw [Int.ceil_eq_iff]
    norm_num
  norm_num [test_size_rows]
  rw [h]
  decide

theorem test_size_thirty_percent_witness :
    cell11_split ([10, 20, 30] : List ℕ) (["a", "b", "c"] : List String)
      [2, 0, 1] = ([10, 20], [30], ["a", "b"], ["c"]) ∧
    ([30] : List ℕ).length =
      (⌈(3 / 10 : ℚ) * ((([10, 20, 30] : List ℕ).length : ℕ) : ℚ)⌉).toNat ∧
    ([10, 20] : List ℕ).length = ([10, 20, 30] : List ℕ).length -
      (⌈(3 / 10 : ℚ) * ((([10, 20, 30] : List ℕ).length : ℕ) : ℚ)⌉).toNat := by
  have hc : cell11_split ([10, 20, 30] : List ℕ)
      (["a", "b", "c"] : List String) [2, 0, 1] =
      ([10, 20], [30], ["a", "b"], ["c"]) := by
    rw [cell11_split]
    rw [show ([10, 20, 30] : List ℕ).length = 3 from rfl, test_size_rows_three]
    decide
  refine ⟨hc, ?_, ?_⟩
  · exact ((test_size_thirty_percent [10, 20, 30] ["a", "b", "c"] [2, 0, 1]
      (by decide) (by decide)).1 [10, 20] [30] ["a", "b"] ["c"] hc).1
  · exact ((test_size_thirty_percent [10, 20, 30] ["a", "b", "c"] [2, 0, 1]
      (by decide) (by decide)).1 [10, 20] [30] ["a", "b"] ["c"] hc).2

/-- Modelled from the spec: `accuracy_score` is scikit-learn library code not
contained in this repository; the notebook's own markdown (cell 23) defines it
as accuracy = correct / total, the fraction of positions where the two label
sequences agree. -/
def accuracy_score {γ : Type} [DecidableEq γ] (y_true y_pred : List γ) : ℚ :=
  (((y_true.zip y_pred).countP fun p => decide (p.1 = p.2) : ℕ) : ℚ) /
    (y_true.length : ℚ)

/-- Number of positions where both label sequences carry class `c` (the true
positives of class `c`). -/
def matched {γ : Type} [DecidableEq γ] (y_true y_pred : List γ) (c : γ) : ℕ :=
  (y_true.zip y_pred).countP fun p => decide (p.1 = c ∧ p.2 = c)

/-- Modelled from the spec: per-class precision of `classification_report`,
"the proportion of positive identifications that was actually correct"
(notebook cell 25) — true positives of `c` over predictions of `c`;
`classification_report` is scikit-learn library code not contained in this
repository. -/
def report_precision {γ : Type} [DecidableEq γ] (y_true y_pred : List γ)
    (c : γ) : ℚ :=
  (matched y_true y_pred c : ℚ) / (y_pred.count c : ℚ)

/-- Modelled from the spec: per-class recall of `classification_report`,
"the proportion of actual positives that was identified correctly" (notebook
cell 25) — true positives of `c` over actual occurrences of `c`. -/
def report_recall {γ : Type} [DecidableEq γ] (y_true y_pred : List γ)
    (c : γ) : ℚ :=
  (matched y_true y_pred c : ℚ) / (y_true.count c : ℚ)

/-- Modelled from the spec: per-class F1 of `classification_report`, the
harmonic mean of that class's precision and recall (notebook cell 25: "a
function of precision and recall"). -/
def report_f1 {γ : Type} [DecidableEq γ] (y_true y_pred : List γ)
    (c : γ) : ℚ :=
  2 * report_precision y_true y_pred c * report_recall y_true y_pred c /
    (report_precision y_true y_pred c + report_recall y_true y_pred c)

/-- Modelled from the spec: the per-class `(precision, recall, F1)` triple of
scikit-learn's `classification_report`, whose first argument is the true
labels and second the predicted labels. -/
def classification_report {γ : Type} [DecidableEq γ]
    (y_true y_pred : List γ) (c : γ) : ℚ × ℚ × ℚ :=
  (report_precision y_true y_pred c, report_recall y_true y_pred c,
    report_f1 y_true y_pred c)

/-- Cell 26 of the notebook:
`report = classification_report(y_pred, y_test)` — the predictions are
passed in the true-labels position. -/
def cell26_report {γ : Type} [DecidableEq γ] (y_test y_pred : List γ)
    (c : γ) : ℚ × ℚ × ℚ :=
  classification_report y_pred y_test c

/-- Cell 31 of the notebook:
`report = classification_report(y_test, y_pred)` — the conventional order. -/
def cell31_report {γ : Type} [DecidableEq γ] (y_test y_pred : List γ)
    (c : γ) : ℚ × ℚ × ℚ :=
  classification_report y_test y_pred c

theorem countP_zip_swap {α β : Type} (q : α → β → Bool) :
    ∀ (a : List α) (b : List β),
      (a.zip b).countP (fun p => q p.1 p.2) =
        (b.zip a).countP (fun p => q p.2 p.1) := by
  intro a
  induction a with
  | nil => intro b; simp
  | cons x t ih =>
    intro b
    cases b with
    | nil => simp
    | cons y s => simp [List.countP_cons, ih s]

theorem matched_comm {γ : Type} [DecidableEq γ] (a b : List γ) (c : γ) :
    matched a b c = matched b a c := by
  rw [matched, matched, countP_zip_swap (fun u v => decide (u = c ∧ v = c))]
  simp only [and_comm]

theorem accuracy_score_comm {γ : Type} [DecidableEq γ] (a b : List γ)
    (h : a.length = b.length) :
    accuracy_score a b = accuracy_score b a := by
  rw [accuracy_score, accuracy_score,
    countP_zip_swap (fun u v => decide (u = v)), h]
  simp only [eq_comm]

theorem report_precision_swap {γ : Type} [DecidableEq γ] (a b : List γ)
    (c : γ) : report_precision b a c = report_recall a b c := by
  rw [report_precision, report_recall, matched_comm]

theorem report_recall_swap {γ : Type} [DecidableEq γ] (a b : List γ)
    (c : γ) : report_recall b a c = report_precision a b c := by
  rw [report_precision, report_recall, matched_comm]

theorem report_f1_swap {γ : Type} [DecidableEq γ] (a b : List γ)
    (c : γ) : report_f1 b a c = report_f1 a b c := by
  have hp := report_precision_swap a b c
  have hr := report_recall_swap a b c
  rw [report_f1, report_f1, hp, hr]
  ring

/-- C8: cell 26 calls `classification_report(y_pred, y_test)` while cell 31
calls `classification_report(y_test, y_pred)`, and swapping the two arguments
exchanges each class's precision and recall while leaving that class's F1
value and the overall accuracy unchanged; the two conventions genuinely
differ, as a concrete pair of label lists shows. -/
theorem classification_report_argument_swap {γ : Type} [DecidableEq γ]
    (y_test y_pred : List γ) (c : γ) (h : y_test.length = y_pred.length) :
    cell26_report y_test y_pred c = classification_report y_pred y_test c ∧
    cell31_report y_test y_pred c = classification_report y_test y_pred c ∧
    (cell26_report y_test y_pred c).1 = (cell31_report y_test y_pred c).2.1 ∧
    (cell26_report y_test y_pred c).2.1 = (cell31_report y_test y_pred c).1 ∧
    (cell26_report y_test y_pred c).2.2 = (cell31_report y_test y_pred c).2.2 ∧
    accuracy_score y_pred y_test = accuracy_score y_test y_pred ∧
    report_precision (["A", "A"] : List String) ["A", "B"] "A" ≠
      report_precision (["A", "B"] : List String) ["A", "A"] "A" := by
  refine ⟨rfl, rfl, ?_, ?_, ?_, accuracy_score_comm y_pred y_test h.symm, ?_⟩
  · exact report_precision_swap y_test y_pred c
  · exact report_recall_swap y_test y_pred c
  · exact report_f1_swap y_test y_pred c
  · have hm1 : matched (["A", "A"] : List String) ["A", "B"] "A" = 1 := by decide
    have hm2 : matched (["A", "B"] : List String) ["A", "A"] "A" = 1 := by decide
    have hc1 : (["A", "B"] : List String).count "A" = 1 := by decide
    have hc2 : (["A", "A"] : List String).count "A" = 2 := by decide
    have h1 : report_precision (["A", "A"] : List String) ["A", "B"] "A" = 1 := by
      rw [report_precision, hm1, hc1]; norm_num
    have h2 : report_precision (["A", "B"] : List String) ["A", "A"] "A" = 1 / 2 := by
      rw [report_precision, hm2, hc2]; norm_num
    rw [h1, h2]
    norm_num

/-- Witness for C8 at a concrete pair of label lists of equal length. -/
theorem classification_report_argument_swap_witness :
    (["A", "A"] : List String).length = (["A", "B"] : List String).length ∧
    (cell26_report (["A", "A"] : List String) ["A", "B"] "A").1 =
      (cell31_report (["A", "A"] : List String) ["A", "B"] "A").2.1 ∧
    accuracy_score (["A", "B"] : List String) ["A", "A"] =
      accuracy_score (["A", "A"] : List String) ["A", "B"] := by
  refine ⟨by decide, ?_, ?_⟩
  · exact (classification_report_argument_swap ["A", "A"] ["A", "B"] "A"
      (by decide)).2.2.1
  · exact (classification_report_argument_swap ["A", "A"] ["A", "B"] "A"
      (by decide)).2.2.2.2.2.1

/-- C9: the accuracy computed by the notebook is insensitive to cell 24's
swapped argument order: for equal-length label sequences the value is
symmetric in its two arguments and equals the number of agreeing positions
divided by the sequence length, so `accuracy_score(y_pred, y_test)` equals
the conventional `accuracy_score(y_test, y_pred)`. -/
theorem accuracy_score_order_insensitive {γ : Type} [DecidableEq γ]
    (a b : List γ) (h : a.length = b.length) :
    accuracy_score a b = accuracy_score b a ∧
    accuracy_score a b =
      (((a.zip b).countP fun p => decide (p.1 = p.2) : ℕ) : ℚ) /
        (a.length : ℚ) := by
  exact ⟨accuracy_score_comm a b h, rfl⟩

/-- Witness for C9 at a concrete pair of label lists of equal length. -/
theorem accuracy_score_order_insensitive_witness :
    (["x", "y"] : List String).length = (["x", "z"] : List String).length ∧
    accuracy_score (["x", "y"] : List String) ["x", "z"] =
      accuracy_score (["x", "z"] : List String) ["x", "y"] := by
  exact ⟨by decide,
    (accuracy_score_order_insensitive ["x", "y"] ["x", "z"] (by decide)).1⟩

/-- The seven pipeline stages of the notebook. -/
inductive Stage
  | load
  | clean
  | split
  | fit
  | predict
  | score
  | plot

deriving instance DecidableEq for Stage

/-- Spec section 2: the notebook is one linear pipeline,
load → clean → split → fit → predict → score → plot. -/
def notebook_stages : List Stage :=
  [Stage.load, Stage.clean, Stage.split, Stage.fit, Stage.predict,
    Stage.score, Stage.plot]

/-- The observable outcome of one sequential execution of the notebook: the
stage trace in execution order, the cleaned dataset, the fitted model, the
test-set predictions, and the accuracy value. -/
structure NotebookResult (M : Type) where
  trace : List Stage
  cleaned : List PenguinRow
  model : M
  y_pred : List (Option String)
  accuracy : ℚ

/-- The notebook's code cells in execution order, as one function: load
(cell 3, the loaded dataframe arrives as `raw`), clean (cell 5, `dropna`),
feature/label extraction (cell 7), split (cell 11), fit (cell 18), predict
(cell 20), score (cell 24), plot (cell 28).  The classifier internals are
library code outside the spec's scope, so the fitting and prediction calls
are supplied as opaque functions `fitF` and `predictF`, and the split's
shuffle as the permutation `perm`.  Each stage reads only values bound by
earlier stages, and the trace records the stage order. -/
def notebook_run {M : Type}
    (fitF : List (List (Option ℚ)) → List (Option String) → M)
    (predictF : M → List (List (Option ℚ)) → List (Option String))
    (raw : List PenguinRow) (perm : List ℕ) : NotebookResult M :=
  let t0 := [Stage.load]
  let data := dropna raw
  let t1 := t0 ++ [Stage.clean]
  let s := cell11_split (Xof data) (yof data) perm
  let t2 := t1 ++ [Stage.split]
  let m := fitF s.1 s.2.2.1
  let t3 := t2 ++ [Stage.fit]
  let yp := predictF m s.2.1
  let t4 := t3 ++ [Stage.predict]
  let acc := accuracy_score yp s.2.2.2
  let t5 := t4 ++ [Stage.score]
  let t6 := t5 ++ [Stage.plot]
  ⟨t6, data, m, yp, acc⟩

/-- C4: the notebook executes the seven stages in the fixed order
load, clean, split, fit, predict, score, plot, and each stage consumes only
outputs of earlier stages: the cleaned data is the `dropna` of the loaded
data, the model is fitted on the training part of the split of the cleaned
data, the predictions apply that fitted model to the test features, the
accuracy scores those predictions against the test labels, and the whole
downstream run is determined by the cleaned dataset (two raw datasets with
the same cleaned form give identical runs). -/
theorem notebook_pipeline_order {M : Type}
    (fitF : List (List (Option ℚ)) → List (Option String) → M)
    (predictF : M → List (List (Option ℚ)) → List (Option String))
    (raw raw' : List PenguinRow) (perm : List ℕ)
    (h : dropna raw = dropna raw') :
    (notebook_run fitF predictF raw perm).trace = notebook_stages ∧
    (notebook_run fitF predictF raw perm).cleaned = dropna raw ∧
    (notebook_run fitF predictF raw perm).model =
      fitF (cell11_split (Xof (dropna raw)) (yof (dropna raw)) perm).1
        (cell11_split (Xof (dropna raw)) (yof (dropna raw)) perm).2.2.1 ∧
    (notebook_run fitF predictF raw perm).y_pred =
      predictF (notebook_run fitF predictF raw perm).model
        (cell11_split (Xof (dropna raw)) (yof (dropna raw)) perm).2.1 ∧
    (notebook_run fitF predictF raw perm).accuracy =
      accuracy_score (notebook_run fitF predictF raw perm).y_pred
        (cell11_split (Xof (dropna raw)) (yof (dropna raw)) perm).2.2.2 ∧
    notebook_run fitF predictF raw perm = notebook_run fitF predictF raw' perm := by
  refine ⟨rfl, rfl, rfl, rfl, rfl, ?_⟩
  simp only [notebook_run, h]

/-- Witness for C4: a concrete run whose trace is the seven stages in order,
and which coincides with the run on a raw dataset with the same cleaned
form (a dataset of one incomplete row cleans to the empty dataset). -/
theorem notebook_pipeline_order_witness :
    (notebook_run (fun _ _ => ()) (fun _ _ => ([] : List (Option String)))
      [demo_row_na] []).trace = notebook_stages ∧
    notebook_run (fun _ _ => ()) (fun _ _ => ([] : List (Option String)))
      [demo_row_na] [] =
    notebook_run (fun _ _ => ()) (fun _ _ => ([] : List (Option String)))
      [] [] := by
  exact ⟨(notebook_pipeline_order (fun _ _ => ())
      (fun _ _ => ([] : List (Option String))) [demo_row_na] [] []
      (by decide)).1,
    (notebook_pipeline_order (fun _ _ => ())
      (fun _ _ => ([] : List (Option String))) [demo_row_na] [] []
      (by decide)).2.2.2.2.2⟩

/-- The external library surface the notebook calls into, with every call
modelled as fallible: each field either returns a value or raises, exactly as
the spec allows the external library to raise for malformed input. -/
structure MLLib (M : Type) where
  load_dataset : Except String (List PenguinRow)
  split : List (List (Option ℚ)) → List (Option String) →
    Except String (List (List (Option ℚ)) × List (List (Option ℚ)) ×
      List (Option String) × List (Option String))
  fit : List (List (Option ℚ)) → List (Option String) → Except String M
  predict : M → List (List (Option ℚ)) → Except String (List (Option String))
  accuracy : List (Option String) → List (Option String) → Except String ℚ
  report : List (Option String) → List (Option String) → Except String String
  plot_tree : M → Except String Unit

/-- The notebook with its library calls taken from `lib`: it sequences the
calls directly with no validation, no exception handling, no recovery and no
retry; its only own data-conditioning step between the calls is `dropna`
(plus the pure column selection of cell 7). -/
def notebook_runE {M : Type} (lib : MLLib M) : Except String (ℚ × String) := do
  let raw ← lib.load_dataset
  let data := dropna raw
  let s ← lib.split (Xof data) (yof data)
  let m ← lib.fit s.1 s.2.2.1
  let yp ← lib.predict m s.2.1
  let acc ← lib.accuracy yp s.2.2.2
  let rep ← lib.report yp s.2.2.2
  let _ ← lib.plot_tree m
  pure (acc, rep)

/-- C6: the notebook performs no validation, catching, recovery or retry of
its own: whichever library call (loading, splitting, fitting, predicting,
scoring, reporting, plotting) raises first, that error propagates out of the
notebook unchanged; when no call raises, the run succeeds, and the data each
call receives has passed through no notebook-side conditioning other than
`dropna` and the pure column selection. -/
theorem notebook_error_propagation {M : Type} (lib : MLLib M) (e : String) :
    (lib.load_dataset = Except.error e → notebook_runE lib = Except.error e) ∧
    (∀ raw : List PenguinRow, lib.load_dataset = Except.ok raw →
      ((lib.split (Xof (dropna raw)) (yof (dropna raw)) = Except.error e →
          notebook_runE lib = Except.error e) ∧
        (∀ s, lib.split (Xof (dropna raw)) (yof (dropna raw)) = Except.ok s →
          ((lib.fit s.1 s.2.2.1 = Except.error e →
              notebook_runE lib = Except.error e) ∧
            (∀ m : M, lib.fit s.1 s.2.2.1 = Except.ok m →
              ((lib.predict m s.2.1 = Except.error e →
                  notebook_runE lib = Except.error e) ∧
                (∀ yp, lib.predict m s.2.1 = Except.ok yp →
                  ((lib.accuracy yp s.2.2.2 = Except.error e →
                      notebook_runE lib = Except.error e) ∧
                    (∀ acc : ℚ, lib.accuracy yp s.2.2.2 = Except.ok acc →
                      ((lib.report yp s.2.2.2 = Except.error e →
                          notebook_runE lib = Except.error e) ∧
                        (∀ rep : String,
                          lib.report yp s.2.2.2 = Except.ok rep →
                          ((lib.plot_tree m = Except.error e →
                              notebook_runE lib = Except.error e) ∧
                            (lib.plot_tree m = Except.ok () →
                              notebook_runE lib =
                                Except.ok (acc, rep)))))))))))))) := by
  constructor
  · intro h
    simp [notebook_runE, h, Bind.bind, Except.bind]
  · intro raw hload
    constructor
    · intro h
      simp [notebook_runE, hload, h, Bind.bind, Except.bind]
    · intro s hsplit
      constructor
      · intro h
        simp [notebook_runE, hload, hsplit, h, Bind.bind, Except.bind]
      · intro m hfit
        constructor
        · intro h
          simp [notebook_runE, hload, hsplit, hfit, h, Bind.bind, Except.bind]
        · intro yp hpredict
          constructor
          · intro h
            simp [notebook_runE, hload, hsplit, hfit, hpredict, h,
              Bind.bind, Except.bind]
          · intro acc haccuracy
            constructor
            · intro h
              simp [notebook_runE, hload, hsplit, hfit, hpredict, haccuracy,
                h, Bind.bind, Except.bind]
            · intro rep hreport
              constructor
              · intro h
                simp [notebook_runE, hload, hsplit, hfit, hpredict,
                  haccuracy, hreport, h, Bind.bind, Except.bind]
              · intro h
                simp [notebook_runE, hload, hsplit, hfit, hpredict,
                  haccuracy, hreport, h, Bind.bind, Except.bind,
                  Pure.pure, Except.pure]

/-- A library whose dataset-loading call raises, used by the witness. -/
def failing_lib : MLLib Unit :=
  ⟨Except.error "load failed", fun _ _ => Except.error "load failed",
    fun _ _ => Except.error "load failed",
    fun _ _ => Except.error "load failed",
    fun _ _ => Except.error "load failed",
    fun _ _ => Except.error "load failed",
    fun _ => Except.error "load failed"⟩

/-- Witness for C6: when the loading call raises, the notebook run is that
very error. -/
theorem notebook_error_propagation_witness :
    notebook_runE failing_lib = Except.error "load failed" :=
  (notebook_error_propagation failing_lib "load failed").1 rfl

/-- The kinds of external-interface events a notebook could perform.  Beside
the interfaces this notebook actually uses (the seaborn bundled-dataset load
and the scikit-learn classifier, splitting, metrics and tree-plotting calls),
the type carries the interface kinds the claim rules out: file reads and
writes, network requests, and command-line arguments.  Purely in-process
computation (pandas dataframe operations, matplotlib figure-object
construction, cell output display) crosses no external interface and has no
event here. -/
inductive ExtCall
  | loadDataset (name : String)
  | trainTestSplit
  | fitModel
  | predictModel
  | accuracyScore
  | classificationReport
  | plotTree
  | modelScore
  | fileRead (path : String)
  | fileWrite (path : String)
  | networkRequest (url : String)
  | commandLineArg (index : ℕ)

deriving instance DecidableEq for ExtCall

/-- The external calls the notebook's code cells make, in cell order:
`sns.load_dataset('penguins')` (cell 3), `train_test_split` (cell 11),
`model.fit` (cell 18), `model.predict` (cell 20), `accuracy_score`
(cell 24), `classification_report` (cell 26), `plot_tree` (cell 28), then
the alternative-model evaluation cell 31's `model.fit`, `model.predict`,
`classification_report` and `model.score`. -/
def notebook_calls : List ExtCall :=
  [ExtCall.loadDataset "penguins", ExtCall.trainTestSplit, ExtCall.fitModel,
    ExtCall.predictModel, ExtCall.accuracyScore,
    ExtCall.classificationReport, ExtCall.plotTree, ExtCall.fitModel,
    ExtCall.predictModel, ExtCall.classificationReport, ExtCall.modelScore]

/-- Calls into the machine-learning library's classifier, splitting, metrics
and tree-plotting surface. -/
def isSklearnCall : ExtCall → Bool
  | ExtCall.trainTestSplit => true
  | ExtCall.fitModel => true
  | ExtCall.predictModel => true
  | ExtCall.accuracyScore => true
  | ExtCall.classificationReport => true
  | ExtCall.plotTree => true
  | ExtCall.modelScore => true
  | _ => false

/-- Input/output surfaces a program could own itself: files, the network,
the command line. -/
def isRawInputOutput : ExtCall → Bool
  | ExtCall.fileRead _ => true
  | ExtCall.fileWrite _ => true
  | ExtCall.networkRequest _ => true
  | ExtCall.commandLineArg _ => true
  | _ => false

/-- C7: the only external interfaces the notebook uses are the single
dataset-loading call `sns.load_dataset('penguins')` into the visualization
library's bundled example datasets and the calls into the machine-learning
library's classifier, splitting, metrics and tree-plotting surface; it
performs no file, network or command-line input/output of its own. -/
theorem external_interface_only_library_calls :
    notebook_calls.count (ExtCall.loadDataset "penguins") = 1 ∧
    (∀ c ∈ notebook_calls,
      c = ExtCall.loadDataset "penguins" ∨ isSklearnCall c = true) ∧
    (∀ c ∈ notebook_calls, isRawInputOutput c = false) := by
  refine ⟨by decide, by decide, by decide⟩

end PalmerPenguins
